import Mathlib

/-!
Shallow embedding of `src/app.py` (credit-card / wallet auto-refill service).

Python floats are modelled as rationals (`ℚ`); `round(x, n)` is modelled by
`pyRound`, which implements round-half-to-even on the exact value, matching
CPython's rounding of the decimal value.  External effects (the gas-price
fetch, the price-oracle contract call, the advisory-model reply) are passed
in as explicit parameters: a fetch that succeeds carries its value, a fetch
that fails is `none` and the code's `except` fallback applies.
-/

namespace CardApp

/-- CPython `round` to an integer: round half to even on the exact value. -/
def pyRoundInt (q : ℚ) : ℤ :=
  if q - q.floor < 1/2 then q.floor
  else if 1/2 < q - q.floor then q.floor + 1
  else if q.floor % 2 = 0 then q.floor else q.floor + 1

/-- CPython `round(q, n)` for `n` decimal places. -/
def pyRound (q : ℚ) (n : ℕ) : ℚ := (pyRoundInt (q * 10 ^ n) : ℚ) / 10 ^ n

/-! ### Constants (src/app.py lines 27-42) -/

def CARD_MIN_THRESHOLD : ℚ := 100

def CARD_TARGET_BALANCE : ℚ := 200

def MINIMUM_PROFITABLE_USD : ℚ := 50

def GAS_LIMIT : ℚ := 21000

/-- `PROFIT_MARGIN = 1.05` (5 percent margin requirement). -/
def PROFIT_MARGIN : ℚ := 21/20

/-- The two module-level globals seeded at process start
(`CURRENT_CARD_BALANCE = 200.00`, `CURRENT_ETH_BALANCE = 0.2`). -/
structure LedgerState where
  card : ℚ
  eth : ℚ
deriving Repr, DecidableEq

def initialLedger : LedgerState := { card := 200, eth := 1/5 }

/-! ### Market data adapter (src/app.py lines 74-107) -/

/-- Names bound at module scope of src/app.py (imports, constants, clients,
functions).  Python resolves a free variable inside a function body against
this set; `price_feed_address` (lines 78) is not among them, only the
constant `PRICE_FEED_ADDRESS` (line 31) is. -/
def moduleGlobals : List String :=
  ["load_dotenv", "FastAPI", "staticfiles", "Request", "JSONResponse",
   "HTMLResponse", "HTTPException", "BaseModel", "validator", "json", "os",
   "random", "logging", "Decimal", "Mistral", "Web3", "app",
   "CARD_MIN_THRESHOLD", "CARD_TARGET_BALANCE", "MISTRAL_API_KEY",
   "INFURA_URL", "PRICE_FEED_ADDRESS", "MINIMUM_PROFITABLE_USD",
   "GAS_LIMIT", "PROFIT_MARGIN", "mistral_client", "w3",
   "CURRENT_CARD_BALANCE", "CURRENT_ETH_BALANCE", "TransactionRequest",
   "TradingSuggestion", "TransactionResult", "get_eth_price",
   "get_gas_price", "calculate_transaction_cost",
   "calculate_minimum_profitable_amount", "get_ai_trading_suggestion",
   "read_root", "status", "use_card", "auto_sell_eth_for_card",
   "simulate_eth_sale", "auto_topup", "get_card_balance",
   "simulate_card_transaction", "check_card_balance"]

/-- The `try` body of `get_eth_price` (lines 75-80).  Building the contract
object evaluates the free name `price_feed_address`; if that name is not a
module global the line raises `NameError` before the oracle is consulted.
`oracleAnswer` is the `answer` field the Chainlink feed would return (8
implied decimals). -/
def get_eth_price_try (oracleAnswer : ℚ) : Except String ℚ :=
  if "price_feed_address" ∈ moduleGlobals then
    Except.ok (oracleAnswer / 10 ^ 8)
  else
    Except.error "NameError: name price_feed_address is not defined"

/-- `get_eth_price` (lines 74-83): any exception in the `try` body falls back
to the constant price 2000. -/
def get_eth_price (oracleAnswer : ℚ) : ℚ :=
  match get_eth_price_try oracleAnswer with
  | Except.ok p => p
  | Except.error _ => 2000

/-- `get_gas_price` (lines 85-92): a successful fetch returns the gwei value,
any failure falls back to 50 gwei. -/
def get_gas_price (gasFetch : Option ℚ) : ℚ :=
  match gasFetch with
  | some gwei => gwei
  | none => 50

/-- `calculate_transaction_cost` (lines 94-107): gwei -> ETH conversion is a
division by 10^9; fee = gas price * GAS_LIMIT, priced in USD at `eth_price`.
The inner `except` fallback (5.0 USD) is unreachable here because the only
fallible step, the gas fetch, already degrades inside `get_gas_price`. -/
def calculate_transaction_cost (gasFetch : Option ℚ) (eth_price : ℚ) : ℚ :=
  let gas_price_gwei := get_gas_price gasFetch
  let gas_price_eth := gas_price_gwei / 10 ^ 9
  let transaction_fee_eth := gas_price_eth * GAS_LIMIT
  transaction_fee_eth * eth_price

/-- `calculate_minimum_profitable_amount` (lines 109-117):
`round(max(MINIMUM_PROFITABLE_USD, tx_cost * PROFIT_MARGIN), 2)`. -/
def calculate_minimum_profitable_amount (gasFetch : Option ℚ) (eth_price : ℚ) : ℚ :=
  let tx_cost_usd := calculate_transaction_cost gasFetch eth_price
  pyRound (max MINIMUM_PROFITABLE_USD (tx_cost_usd * PROFIT_MARGIN)) 2

/-! ### Advisory engine (src/app.py lines 119-204) -/

/-- The `ACTION` / `AMOUNT` fields as parsed out of the model reply text by
lines 154-171: action lowercased, amount numeric; a field missing from the
text keeps the parse default (`action = hold`, `amount = 0`). -/
structure AiReply where
  action : String
  amount : ℚ
deriving Repr, DecidableEq

/-- The validated suggestion the advisory engine hands to its callers. -/
structure Suggestion where
  action : String
  amount : ℚ
deriving Repr, DecidableEq

/-- The clamping step of `get_ai_trading_suggestion` (lines 173-185): buy is
forced to `min(0.5, balance * 0.5)` (the parsed amount is ignored), sell to
`min(parsed, balance * 0.5)`, anything else is normalized to hold with
amount 0; finally `amount = round(abs(amount), 4)`. -/
def clampSuggestion (r : AiReply) (balance_eth : ℚ) : Suggestion :=
  if r.action = "buy" then
    { action := "buy", amount := pyRound |min (1/2) (balance_eth * (1/2))| 4 }
  else if r.action = "sell" then
    { action := "sell", amount := pyRound |min r.amount (balance_eth * (1/2))| 4 }
  else
    { action := "hold", amount := pyRound |(0 : ℚ)| 4 }

/-- `get_ai_trading_suggestion` (lines 119-204): `apiReply = none` models any
exception while calling the model or parsing its reply, which yields the safe
default hold/0 (lines 187-191 and 198-204); otherwise the parsed reply is
clamped.  The prompt text and the reason strings carry no control flow and
are elided. -/
def get_ai_trading_suggestion (apiReply : Option AiReply) (balance_eth : ℚ) :
    Suggestion :=
  match apiReply with
  | none => { action := "hold", amount := 0 }
  | some r => clampSuggestion r balance_eth

/-! ### Ledger reads and threshold policy (src/app.py lines 358-387) -/

/-- The top-up / skip decision record of `check_card_balance`
(lines 371-387); the reason text is elided. -/
structure Decision where
  action : String
  amount : ℚ
deriving Repr, DecidableEq

def check_card_balance (balance : ℚ) : Decision :=
  if balance < CARD_MIN_THRESHOLD then
    { action := "top-up", amount := pyRound (CARD_TARGET_BALANCE - balance) 2 }
  else
    { action := "skip", amount := 0 }

/-! ### GET /status (src/app.py lines 211-238) -/

/-- The external fetches one `/status` request performs: the price-oracle
call, the direct gas fetch (line 217), the gas fetch inside the
min-profitable computation (line 218), and the advisory call. -/
structure StatusExternals where
  oracleAnswer : ℚ
  gasFetch1 : Option ℚ
  gasFetch2 : Option ℚ
  aiReply : Option AiReply

structure StatusResponse where
  card_balance : ℚ
  eth_balance : ℚ
  eth_price : ℚ
  gas_price_gwei : ℚ
  min_profitable_amount : ℚ
  metamask_balance_usd : ℚ
  trading_suggestion : Suggestion
  decision : Decision
deriving Repr, DecidableEq

/-- The `/status` handler body: it only reads the two globals. -/
def status (st : LedgerState) (ext : StatusExternals) :
    StatusResponse × LedgerState :=
  let card_balance := st.card
  let eth_price := get_eth_price ext.oracleAnswer
  let gas_price := get_gas_price ext.gasFetch1
  let min_profitable_amount :=
    calculate_minimum_profitable_amount ext.gasFetch2 eth_price
  let eth_balance := st.eth
  let metamask_balance_usd := eth_balance * eth_price
  let trading_suggestion := get_ai_trading_suggestion ext.aiReply eth_balance
  let decision := check_card_balance card_balance
  ({ card_balance := card_balance, eth_balance := eth_balance,
     eth_price := eth_price, gas_price_gwei := gas_price,
     min_profitable_amount := min_profitable_amount,
     metamask_balance_usd := metamask_balance_usd,
     trading_suggestion := trading_suggestion, decision := decision }, st)

/-! ### Sale and top-up sub-sequence (src/app.py lines 292-356) -/

/-- The external fetches of one `auto_sell_eth_for_card` call: its own
price-oracle call (line 294), the gas fetch inside the cost computation
(line 295), and the advisory call (line 306). -/
structure SaleExternals where
  oracleAnswer : ℚ
  gasFetch : Option ℚ
  aiReply : Option AiReply

/-- The success record of `auto_sell_eth_for_card` (lines 315-321); the
random tx hash carries no logic and is elided. -/
structure SaleResult where
  eth_sold : ℚ
  suggestion : Suggestion
deriving Repr, DecidableEq

/-- `simulate_eth_sale` (lines 326-335): decrement the global ETH balance by
the sold amount. -/
def simulate_eth_sale (st : LedgerState) (eth_amount : ℚ) : LedgerState :=
  { st with eth := st.eth - eth_amount }

/-- `auto_sell_eth_for_card` (lines 292-324).  `Except.error` is a raised
`ValueError` (re-raised unchanged by the function's own handler); the
numeric interpolations of the two messages are elided. -/
def auto_sell_eth_for_card (st : LedgerState) (ext : SaleExternals)
    (target_usd_amount : ℚ) : Except String SaleResult × LedgerState :=
  let eth_price := get_eth_price ext.oracleAnswer
  let gas_cost := calculate_transaction_cost ext.gasFetch eth_price
  let required_amount := target_usd_amount * PROFIT_MARGIN + gas_cost
  let eth_amount := required_amount / eth_price
  if eth_amount > st.eth then
    (Except.error "Insufficient ETH balance", st)
  else
    let suggestion := get_ai_trading_suggestion ext.aiReply st.eth
    if suggestion.action = "hold" ∧ suggestion.amount > eth_amount then
      (Except.error "AI suggests holding", st)
    else
      (Except.ok { eth_sold := eth_amount, suggestion := suggestion },
       simulate_eth_sale st eth_amount)

/-- `auto_topup` (lines 337-356): sell first, then credit the card by the
requested USD amount.  A `ValueError` from the sale propagates (line 356
re-raises). -/
def auto_topup (st : LedgerState) (ext : SaleExternals) (amount_usd : ℚ) :
    Except String SaleResult × LedgerState :=
  match auto_sell_eth_for_card st ext amount_usd with
  | (Except.error e, st1) => (Except.error e, st1)
  | (Except.ok r, st1) =>
    (Except.ok r, { st1 with card := st1.card + amount_usd })

/-! ### POST /use-card (src/app.py lines 240-290) -/

/-- An exception raised inside the `use_card` `try` body: either one of the
explicit `HTTPException(400, ...)` raises (lines 249-256) or a `ValueError`
propagating out of `auto_topup`. -/
inductive PyExc where
  | httpExc (statusCode : ℕ) (detail : String)
  | valueError (msg : String)
deriving Repr, DecidableEq

/-- CPython `str(e)`: starlette's `HTTPException.__str__` is
`f-string of status_code: detail`; `str(ValueError(m))` is `m`. -/
def pyStr : PyExc → String
  | PyExc.httpExc c d => toString c ++ ": " ++ d
  | PyExc.valueError m => m

/-- `f-string with format .2f` applied to a non-negative rational: two
decimal places, round half to even. -/
def format2 (q : ℚ) : String :=
  let n := (pyRoundInt (q * 100)).toNat
  toString (n / 100) ++ "." ++ (if n % 100 < 10 then "0" else "") ++
    toString (n % 100)

/-- The HTTP error produced by a `raise HTTPException` that escapes the
handler. -/
structure HttpError where
  statusCode : ℕ
  detail : String
deriving Repr, DecidableEq

/-- The success payload of `/use-card` (lines 279-287); the tx hash is
elided. -/
structure UseCardResponse where
  amount : ℚ
  new_balance : ℚ
  new_metamask_balance_usd : ℚ
  new_eth_balance : ℚ
  min_profitable_amount : ℚ
deriving Repr, DecidableEq

/-- The external fetches of one `/use-card` request: the price-oracle call
(line 245), the gas fetch of the profitability check (line 246), the gas
fetch of the second min-profitable computation (line 267), and the externals
of the `auto_topup` call (line 270). -/
structure UseCardExternals where
  oracleAnswer : ℚ
  gasFetch1 : Option ℚ
  gasFetch2 : Option ℚ
  sale : SaleExternals

/-- The `try` body of `use_card` (lines 242-287), updating the two globals
in program order: withdrawal (line 260); if the new balance is below the
threshold, `auto_topup` (which itself sells ETH and credits the card), then
the card is credited by `min_topup` again (line 271) and the wallet is
debited by `min_topup / eth_price` again (lines 274-275). -/
def use_card_try (st : LedgerState) (ext : UseCardExternals) (amount_usd : ℚ) :
    Except PyExc UseCardResponse × LedgerState :=
  let eth_price := get_eth_price ext.oracleAnswer
  let min_profitable_amount :=
    calculate_minimum_profitable_amount ext.gasFetch1 eth_price
  if amount_usd < min_profitable_amount then
    (Except.error (PyExc.httpExc 400
      ("Amount too low for profitable transaction. Minimum amount: $" ++
        format2 min_profitable_amount)), st)
  else if st.card < amount_usd then
    (Except.error (PyExc.httpExc 400 "Insufficient card balance"), st)
  else
    let st1 := { st with card := st.card - amount_usd }
    if st1.card < CARD_MIN_THRESHOLD then
      let min_topup := max (CARD_TARGET_BALANCE - st1.card)
        (calculate_minimum_profitable_amount ext.gasFetch2 eth_price * 2)
      match auto_topup st1 ext.sale min_topup with
      | (Except.error e, st2) => (Except.error (PyExc.valueError e), st2)
      | (Except.ok _, st2) =>
        let st3 := { st2 with card := st2.card + min_topup }
        let st4 := { st3 with eth := st3.eth - min_topup / eth_price }
        let resp : UseCardResponse :=
          { amount := amount_usd, new_balance := st4.card,
            new_metamask_balance_usd := st4.eth * eth_price,
            new_eth_balance := st4.eth,
            min_profitable_amount := min_profitable_amount }
        (Except.ok resp, st4)
    else
      let resp : UseCardResponse :=
        { amount := amount_usd, new_balance := st1.card,
          new_metamask_balance_usd := st1.eth * eth_price,
          new_eth_balance := st1.eth,
          min_profitable_amount := min_profitable_amount }
      (Except.ok resp, st1)

/-- `use_card` (lines 240-290): the blanket `except Exception` at line 288
catches every exception raised in the body, including the two explicit
`HTTPException(400, ...)`, and re-raises `HTTPException(500, str(e))`. -/
def use_card (st : LedgerState) (ext : UseCardExternals) (amount_usd : ℚ) :
    Except HttpError UseCardResponse × LedgerState :=
  match use_card_try st ext amount_usd with
  | (Except.ok r, st1) => (Except.ok r, st1)
  | (Except.error e, st1) =>
    (Except.error { statusCode := 500, detail := pyStr e }, st1)

/-- The pydantic validators of `TransactionRequest` (lines 44-59): amount
must be positive, currency must be ETH or USD. -/
def validateRequest (amount : ℚ) (currency : String) : Prop :=
  0 < amount ∧ (currency = "ETH" ∨ currency = "USD")

instance (amount : ℚ) (currency : String) :
    Decidable (validateRequest amount currency) := by
  unfold validateRequest
  infer_instance

/-- The full `/use-card` entry point: FastAPI runs the pydantic validation
before the handler body and answers 422 on failure, leaving the handler (and
the globals) untouched. -/
def handle_use_card (st : LedgerState) (ext : UseCardExternals)
    (amount : ℚ) (currency : String) :
    Except HttpError UseCardResponse × LedgerState :=
  if validateRequest amount currency then
    use_card st ext amount
  else
    (Except.error { statusCode := 422, detail := "validation error" }, st)

/-- Concrete externals: oracle answer irrelevant (the price oracle always
degrades to 2000), both gas fetches failed (gwei fallback 50), advisory call
failed (safe default hold/0). -/
def ext0 : UseCardExternals :=
  { oracleAnswer := 0, gasFetch1 := none, gasFetch2 := none,
    sale := { oracleAnswer := 0, gasFetch := none, aiReply := none } }

/-- Concrete externals: like `ext0` but the advisory model replied
ACTION HOLD with AMOUNT 5. -/
def extHold : UseCardExternals :=
  { oracleAnswer := 0, gasFetch1 := none, gasFetch2 := none,
    sale := { oracleAnswer := 0, gasFetch := none,
              aiReply := some { action := "hold", amount := 5 } } }

/-! ### Rounding lemmas -/

lemma ratFloor_eq_intFloor (q : ℚ) : (q.floor : ℤ) = ⌊q⌋ := by
  rw [Rat.floor_def', Rat.floor_def]

lemma pyRoundInt_ge_floor (q : ℚ) : ⌊q⌋ ≤ pyRoundInt q := by
  unfold pyRoundInt
  rw [ratFloor_eq_intFloor]
  split
  · exact le_refl _
  · split
    · exact le_of_lt (Int.lt_succ _)
    · split
      · exact le_refl _
      · exact le_of_lt (Int.lt_succ _)

lemma pyRoundInt_ge (q : ℚ) : q - 1/2 ≤ (pyRoundInt q : ℚ) := by
  unfold pyRoundInt
  rw [ratFloor_eq_intFloor]
  split
  · rename_i h
    linarith [Int.floor_le q]
  · split
    · rw [Int.cast_add, Int.cast_one]
      linarith [Int.lt_floor_add_one q]
    · split
      · rename_i h1 h2 h3
        have hr : q - (⌊q⌋ : ℚ) = 1/2 := le_antisymm (not_lt.mp h2) (not_lt.mp h1)
        linarith
      · rw [Int.cast_add, Int.cast_one]
        linarith [Int.lt_floor_add_one q]

lemma pyRoundInt_nonneg (q : ℚ) (h : 0 ≤ q) : 0 ≤ pyRoundInt q := by
  have h1 := pyRoundInt_ge_floor q
  have h0 : (0 : ℤ) ≤ ⌊q⌋ := Int.floor_nonneg.mpr h
  omega

lemma pyRoundInt_eq_of (z : ℤ) (q : ℚ) (h1 : (z : ℚ) ≤ q)
    (h2 : q < (z : ℚ) + 1/2) : pyRoundInt q = z := by
  have hf : ⌊q⌋ = z := by
    apply Int.floor_eq_iff.mpr
    constructor
    · exact h1
    · linarith
  unfold pyRoundInt
  rw [ratFloor_eq_intFloor, hf]
  rw [if_pos (by linarith)]

lemma pyRound_eq (q : ℚ) (n : ℕ) (z : ℤ) (h1 : (z : ℚ) ≤ q * 10 ^ n)
    (h2 : q * 10 ^ n < (z : ℚ) + 1/2) : pyRound q n = (z : ℚ) / 10 ^ n := by
  unfold pyRound
  rw [pyRoundInt_eq_of z _ h1 h2]

lemma pyRound_nonneg (q : ℚ) (n : ℕ) (h : 0 ≤ q) : 0 ≤ pyRound q n := by
  unfold pyRound
  apply div_nonneg _ (by positivity)
  exact_mod_cast pyRoundInt_nonneg _ (by positivity)

lemma le_pyRound (z : ℤ) (q : ℚ) (n : ℕ) (h : (z : ℚ) ≤ q) :
    (z : ℚ) ≤ pyRound q n := by
  unfold pyRound
  have hpow : (0 : ℚ) < 10 ^ n := by positivity
  rw [le_div_iff₀ hpow]
  have hz : z * 10 ^ n ≤ ⌊q * 10 ^ n⌋ := by
    apply Int.le_floor.mpr
    push_cast
    exact mul_le_mul_of_nonneg_right h (le_of_lt hpow)
  have hle : z * 10 ^ n ≤ pyRoundInt (q * 10 ^ n) :=
    le_trans hz (pyRoundInt_ge_floor (q * 10 ^ n))
  calc ((z : ℚ) * 10 ^ n) = ((z * 10 ^ n : ℤ) : ℚ) := by push_cast; ring
    _ ≤ (pyRoundInt (q * 10 ^ n) : ℚ) := by exact_mod_cast hle

lemma pyRound_ge (q : ℚ) (n : ℕ) :
    q - 1 / (2 * 10 ^ n) ≤ pyRound q n := by
  unfold pyRound
  have hpow : (0 : ℚ) < 10 ^ n := by positivity
  rw [le_div_iff₀ hpow]
  have h := pyRoundInt_ge (q * 10 ^ n)
  calc (q - 1 / (2 * 10 ^ n)) * 10 ^ n = q * 10 ^ n - 1/2 := by
        field_simp
        ring
    _ ≤ (pyRoundInt (q * 10 ^ n) : ℚ) := h

/-! ### Fallback and evaluation lemmas -/

lemma get_eth_price_eq_fallback (oracleAnswer : ℚ) :
    get_eth_price oracleAnswer = 2000 := by
  have hmem : ¬ ("price_feed_address" ∈ moduleGlobals) := by decide
  unfold get_eth_price get_eth_price_try
  rw [if_neg hmem]

lemma transaction_cost_default :
    calculate_transaction_cost none 2000 = 21/10 := by
  unfold calculate_transaction_cost get_gas_price GAS_LIMIT
  norm_num

lemma min_profitable_default :
    calculate_minimum_profitable_amount none 2000 = 50 := by
  simp only [calculate_minimum_profitable_amount, transaction_cost_default,
    MINIMUM_PROFITABLE_USD, PROFIT_MARGIN]
  rw [max_eq_left (by norm_num)]
  rw [pyRound_eq _ _ 5000 (by norm_num) (by norm_num)]
  norm_num

lemma ai_suggestion_none (balance_eth : ℚ) :
    get_ai_trading_suggestion none balance_eth =
      { action := "hold", amount := 0 } := rfl

lemma pyRound_zero (n : ℕ) : pyRound 0 n = 0 := by
  rw [pyRound_eq _ _ 0 (by norm_num) (by norm_num)]
  norm_num

lemma clamp_hold (amount balance_eth : ℚ) :
    clampSuggestion { action := "hold", amount := amount } balance_eth =
      { action := "hold", amount := 0 } := by
  simp only [clampSuggestion]
  rw [if_neg (by decide), if_neg (by decide)]
  rw [abs_zero, pyRound_zero]

/-- A run of `auto_sell_eth_for_card` in which both guards pass: the wallet
is debited by the computed crypto amount `e`. -/
lemma auto_sell_success (c w : ℚ) (ext : SaleExternals) (t e : ℚ)
    (he : (t * PROFIT_MARGIN + calculate_transaction_cost ext.gasFetch 2000) / 2000 = e)
    (h4 : ¬ (e > w))
    (h5 : ¬ ((get_ai_trading_suggestion ext.aiReply w).action = "hold" ∧
        (get_ai_trading_suggestion ext.aiReply w).amount > e)) :
    auto_sell_eth_for_card ⟨c, w⟩ ext t =
      (Except.ok ⟨e, get_ai_trading_suggestion ext.aiReply w⟩, ⟨c, w - e⟩) := by
  simp only [auto_sell_eth_for_card, simulate_eth_sale,
    get_eth_price_eq_fallback, he]
  rw [if_neg h4, if_neg h5]

/-- A successful `auto_topup` run: the sale debits the wallet by `e`, then
the card is credited by the requested USD amount (once, here). -/
lemma auto_topup_success (c w : ℚ) :
    ∀ (ext : SaleExternals) (t e : ℚ),
    ((t * PROFIT_MARGIN + calculate_transaction_cost ext.gasFetch 2000) / 2000 = e) →
    (¬ (e > w)) →
    (¬ ((get_ai_trading_suggestion ext.aiReply w).action = "hold" ∧
        (get_ai_trading_suggestion ext.aiReply w).amount > e)) →
    auto_topup ⟨c, w⟩ ext t =
      (Except.ok ⟨e, get_ai_trading_suggestion ext.aiReply w⟩, ⟨c + t, w - e⟩) := by
  intro ext t e he h4 h5
  simp only [auto_topup, auto_sell_success c w ext t e he h4 h5]

lemma format2_eval (q : ℚ) (z : ℕ) (h : pyRoundInt (q * 100) = (z : ℤ)) :
    format2 q = toString (z / 100) ++ "." ++
      (if z % 100 < 10 then "0" else "") ++ toString (z % 100) := by
  simp only [format2, h, Int.toNat_natCast]

lemma format2_50 : format2 50 = "50.00" := by
  rw [format2_eval 50 5000 (by
    rw [pyRoundInt_eq_of 5000 _ (by norm_num) (by norm_num)]
    norm_num)]
  rfl

/-- A `/use-card` run rejected by the profitability check: the inner 400 is
re-raised as a 500 and the ledger is untouched. -/
lemma use_card_too_low (c w : ℚ) (ext : UseCardExternals) (a m1 : ℚ)
    (hm1 : calculate_minimum_profitable_amount ext.gasFetch1 2000 = m1)
    (h : a < m1) :
    use_card ⟨c, w⟩ ext a =
      (Except.error ⟨500, toString 400 ++ ": " ++
        ("Amount too low for profitable transaction. Minimum amount: $" ++
          format2 m1)⟩, ⟨c, w⟩) := by
  simp only [use_card, use_card_try, get_eth_price_eq_fallback, hm1, pyStr]
  rw [if_pos h]

/-- A `/use-card` run rejected by the balance-sufficiency check: again a 500
answer and an untouched ledger. -/
lemma use_card_insufficient (c w : ℚ) (ext : UseCardExternals) (a m1 : ℚ)
    (hm1 : calculate_minimum_profitable_amount ext.gasFetch1 2000 = m1)
    (h1 : ¬ (a < m1)) (h2 : c < a) :
    use_card ⟨c, w⟩ ext a =
      (Except.error ⟨500, toString 400 ++ ": " ++ "Insufficient card balance"⟩,
       ⟨c, w⟩) := by
  simp only [use_card, use_card_try, get_eth_price_eq_fallback, hm1, pyStr]
  rw [if_neg h1, if_pos h2]

/-- A `/use-card` run whose withdrawal drops the card below the threshold
and whose top-up sub-sequence succeeds: the card is credited `t` twice (once
inside `auto_topup`, once at line 271) and the wallet is debited twice (the
sale amount `e` inside `simulate_eth_sale`, then `t / 2000` at line 275). -/
lemma use_card_topup_eval (c w : ℚ) (ext : UseCardExternals) (a m1 t e : ℚ)
    (hm1 : calculate_minimum_profitable_amount ext.gasFetch1 2000 = m1)
    (h1 : ¬ (a < m1)) (h2 : ¬ (c < a)) (h3 : c - a < CARD_MIN_THRESHOLD)
    (ht : max (CARD_TARGET_BALANCE - (c - a))
        (calculate_minimum_profitable_amount ext.gasFetch2 2000 * 2) = t)
    (he : (t * PROFIT_MARGIN +
        calculate_transaction_cost ext.sale.gasFetch 2000) / 2000 = e)
    (h4 : ¬ (e > w))
    (h5 : ¬ ((get_ai_trading_suggestion ext.sale.aiReply w).action = "hold" ∧
        (get_ai_trading_suggestion ext.sale.aiReply w).amount > e)) :
    use_card ⟨c, w⟩ ext a =
      (Except.ok ⟨a, c - a + t + t, (w - e - t / 2000) * 2000,
         w - e - t / 2000, m1⟩,
       ⟨c - a + t + t, w - e - t / 2000⟩) := by
  simp only [use_card, use_card_try, get_eth_price_eq_fallback, hm1]
  rw [if_neg h1, if_neg h2, if_pos h3, ht,
    auto_topup_success (c - a) w ext.sale t e he h4 h5]

/-- Whenever the advisory engine reports `hold`, the clamp has already
forced its amount to 0. -/
lemma hold_amount_zero (apiReply : Option AiReply) (b : ℚ)
    (h : (get_ai_trading_suggestion apiReply b).action = "hold") :
    (get_ai_trading_suggestion apiReply b).amount = 0 := by
  cases apiReply with
  | none => rfl
  | some r =>
    by_cases hb : r.action = "buy"
    · exfalso
      simp only [get_ai_trading_suggestion, clampSuggestion, if_pos hb] at h
      exact absurd h (by decide)
    · by_cases hs : r.action = "sell"
      · exfalso
        simp only [get_ai_trading_suggestion, clampSuggestion, if_neg hb,
          if_pos hs] at h
        exact absurd h (by decide)
      · simp only [get_ai_trading_suggestion, clampSuggestion, if_neg hb,
          if_neg hs]
        rw [abs_zero, pyRound_zero]

/-- The withdrawal of 150 USD from the seed state with all external calls
degraded: the card ends at 350 and the wallet at 0.0452 ETH. -/
lemma use_card_run_A :
    use_card initialLedger ext0 150 =
      (Except.ok ⟨150, 350, 452/5, 113/2500, 50⟩, ⟨350, 113/2500⟩) := by
  rw [show initialLedger = (⟨200, 1/5⟩ : LedgerState) from rfl]
  rw [use_card_topup_eval 200 (1/5) ext0 150 50 150 (399/5000)
    (min_profitable_default) (by norm_num) (by norm_num)
    (by norm_num [CARD_MIN_THRESHOLD])
    (by
      simp only [ext0]
      rw [min_profitable_default,
        max_eq_left (by norm_num [CARD_TARGET_BALANCE])]
      norm_num [CARD_TARGET_BALANCE])
    (by
      simp only [ext0]
      rw [transaction_cost_default]
      norm_num [PROFIT_MARGIN])
    (by norm_num)
    (by
      simp only [ext0]
      rw [ai_suggestion_none]
      intro hcon
      exact absurd hcon.2 (by norm_num))]
  norm_num [Prod.ext_iff, UseCardResponse.mk.injEq, LedgerState.mk.injEq]

/-- Same run, but the advisory model replied HOLD with amount 5: the clamp
zeroes the amount, the veto does not fire and the sale goes through. -/
lemma use_card_run_hold :
    use_card initialLedger extHold 150 =
      (Except.ok ⟨150, 350, 452/5, 113/2500, 50⟩, ⟨350, 113/2500⟩) := by
  rw [show initialLedger = (⟨200, 1/5⟩ : LedgerState) from rfl]
  rw [use_card_topup_eval 200 (1/5) extHold 150 50 150 (399/5000)
    (min_profitable_default) (by norm_num) (by norm_num)
    (by norm_num [CARD_MIN_THRESHOLD])
    (by
      simp only [extHold]
      rw [min_profitable_default,
        max_eq_left (by norm_num [CARD_TARGET_BALANCE])]
      norm_num [CARD_TARGET_BALANCE])
    (by
      simp only [extHold]
      rw [transaction_cost_default]
      norm_num [PROFIT_MARGIN])
    (by norm_num)
    (by
      simp only [extHold, get_ai_trading_suggestion]
      rw [clamp_hold]
      intro hcon
      exact absurd hcon.2 (by norm_num))]
  norm_num [Prod.ext_iff, UseCardResponse.mk.injEq, LedgerState.mk.injEq]

/-- First call of the two-step sequence that drives the wallet negative:
withdraw 101 from the seed state. -/
lemma use_card_run_B1 :
    use_card initialLedger ext0 101 =
      (Except.ok ⟨101, 301, (3817/40000) * 2000, 3817/40000, 50⟩,
       ⟨301, 3817/40000⟩) := by
  rw [show initialLedger = (⟨200, 1/5⟩ : LedgerState) from rfl]
  rw [use_card_topup_eval 200 (1/5) ext0 101 50 101 (2163/40000)
    (min_profitable_default) (by norm_num) (by norm_num)
    (by norm_num [CARD_MIN_THRESHOLD])
    (by
      simp only [ext0]
      rw [min_profitable_default,
        max_eq_left (by norm_num [CARD_TARGET_BALANCE])]
      norm_num [CARD_TARGET_BALANCE])
    (by
      simp only [ext0]
      rw [transaction_cost_default]
      norm_num [PROFIT_MARGIN])
    (by norm_num)
    (by
      simp only [ext0]
      rw [ai_suggestion_none]
      intro hcon
      exact absurd hcon.2 (by norm_num))]
  norm_num [Prod.ext_iff, UseCardResponse.mk.injEq, LedgerState.mk.injEq]

/-- Second call of the sequence: withdraw 251 from the state left by the
first call; the final wallet balance is negative. -/
lemma use_card_run_B2 :
    use_card ⟨301, 3817/40000⟩ ext0 251 =
      (Except.ok ⟨251, 350, (-19/320) * 2000, -19/320, 50⟩,
       ⟨350, -19/320⟩) := by
  rw [use_card_topup_eval 301 (3817/40000) ext0 251 50 150 (399/5000)
    (min_profitable_default) (by norm_num) (by norm_num)
    (by norm_num [CARD_MIN_THRESHOLD])
    (by
      simp only [ext0]
      rw [min_profitable_default,
        max_eq_left (by norm_num [CARD_TARGET_BALANCE])]
      norm_num [CARD_TARGET_BALANCE])
    (by
      simp only [ext0]
      rw [transaction_cost_default]
      norm_num [PROFIT_MARGIN])
    (by norm_num)
    (by
      simp only [ext0]
      rw [ai_suggestion_none]
      intro hcon
      exact absurd hcon.2 (by norm_num))]
  norm_num [Prod.ext_iff, UseCardResponse.mk.injEq, LedgerState.mk.injEq]

/-! ### Claim theorems -/

/-- C1: after the withdrawal of 150 USD from the seed ledger triggers a
completed top-up (target 150 USD), the wallet does not decrease by the
crypto amount of the selling step alone: it decreases by that amount plus a
second debit of `topUpAmount / price` applied at line 275, so the claimed
final wallet balance is not reached. -/
theorem claim_C1_wallet_double_debit :
    (use_card initialLedger ext0 150).2.eth =
      initialLedger.eth -
        (150 * PROFIT_MARGIN +
          calculate_transaction_cost ext0.sale.gasFetch 2000) / 2000 -
        150 / 2000 ∧
    (use_card initialLedger ext0 150).2.eth ≠
      initialLedger.eth -
        (150 * PROFIT_MARGIN +
          calculate_transaction_cost ext0.sale.gasFetch 2000) / 2000 := by
  rw [use_card_run_A]
  have hc : calculate_transaction_cost ext0.sale.gasFetch 2000 = 21/10 := by
    simp only [ext0]
    exact transaction_cost_default
  rw [hc]
  constructor
  · norm_num [initialLedger, PROFIT_MARGIN]
  · norm_num [initialLedger, PROFIT_MARGIN]

/-- C2: `auto_topup` itself credits the card by exactly `topUpAmount` once,
but the orchestrator credits it again at line 271, so the final card balance
is the post-withdrawal balance plus twice the top-up amount, not plus the
top-up amount applied once. -/
theorem claim_C2_card_double_credit :
    (auto_topup ⟨50, 1/5⟩ ext0.sale 150).2.card = 50 + 150 ∧
    (use_card initialLedger ext0 150).2.card = 350 ∧
    ((200 : ℚ) - 150) + 150 ≠ 350 := by
  refine ⟨?_, ?_, by norm_num⟩
  · rw [auto_topup_success 50 (1/5) ext0.sale 150 (399/5000)
      (by
        simp only [ext0]
        rw [transaction_cost_default]
        norm_num [PROFIT_MARGIN])
      (by norm_num)
      (by
        simp only [ext0]
        rw [ai_suggestion_none]
        intro hcon
        exact absurd hcon.2 (by norm_num))]
  · rw [use_card_run_A]

/-- C3: the claimed invariant fails: starting from the seed state
(card 200, wallet 0.2), the sequence withdraw 101 then withdraw 251 (all
external calls degraded to their fallbacks) leaves the wallet balance
negative at a rest point. -/
theorem claim_C3_wallet_negative :
    ((use_card (use_card initialLedger ext0 101).2 ext0 251).2).eth < 0 := by
  have h1 : (use_card initialLedger ext0 101).2 =
      (⟨301, 3817/40000⟩ : LedgerState) := by
    rw [use_card_run_B1]
  rw [h1, use_card_run_B2]
  norm_num

/-- C4: a `/use-card` request failing the profitability check or the
sufficiency check is not answered with a 400: the blanket `except` at line
288 re-raises the inner `HTTPException(400, ...)` as a 500 whose detail
string merely embeds the original 400 reason. -/
theorem claim_C4_rejections_become_500 :
    (use_card initialLedger ext0 10).1 = Except.error
      { statusCode := 500, detail :=
        "400: Amount too low for profitable transaction. Minimum amount: $50.00" } ∧
    (use_card initialLedger ext0 250).1 = Except.error
      { statusCode := 500, detail := "400: Insufficient card balance" } := by
  constructor
  · rw [show initialLedger = (⟨200, 1/5⟩ : LedgerState) from rfl,
      use_card_too_low 200 (1/5) ext0 10 50 min_profitable_default
        (by norm_num)]
    rw [format2_50]
    rfl
  · rw [show initialLedger = (⟨200, 1/5⟩ : LedgerState) from rfl,
      use_card_insufficient 200 (1/5) ext0 250 50 min_profitable_default
        (by norm_num) (by norm_num)]
    rfl

/-- C5: a `/use-card` request that fails request validation, the
profitability check, or the sufficiency check leaves both balances
unchanged. -/
theorem claim_C5_failed_checks_preserve_balances (st : LedgerState)
    (ext : UseCardExternals) (a : ℚ) (currency : String)
    (h : ¬ validateRequest a currency ∨
      a < calculate_minimum_profitable_amount ext.gasFetch1
            (get_eth_price ext.oracleAnswer) ∨
      st.card < a) :
    (handle_use_card st ext a currency).2 = st := by
  obtain ⟨c, w⟩ := st
  unfold handle_use_card
  by_cases hv : validateRequest a currency
  · rw [if_pos hv]
    rw [get_eth_price_eq_fallback] at h
    by_cases hlow : a < calculate_minimum_profitable_amount ext.gasFetch1 2000
    · rw [use_card_too_low c w ext a _ rfl hlow]
    · rcases h with h | h | h
      · exact absurd hv h
      · exact absurd h hlow
      · rw [use_card_insufficient c w ext a _ rfl hlow h]
  · rw [if_neg hv]

/-- Witness for C5 at a concrete rejected input: amount 10 is below the
minimum 50 and the seed ledger is unchanged. -/
theorem claim_C5_witness :
    (handle_use_card initialLedger ext0 10 "USD").2 = initialLedger := by
  apply claim_C5_failed_checks_preserve_balances
  right; left
  rw [get_eth_price_eq_fallback]
  rw [show calculate_minimum_profitable_amount ext0.gasFetch1 2000 = 50 from
    min_profitable_default]
  norm_num

/-- C6 (counterexample): at price p = 24000400/441 with the fallback gas
rate, the exact margin product is 60.001 USD and the two-decimal rounding
pulls the published minimum down to 60.00, strictly below
`transactionCost(p) * profitMarginFactor`. -/
theorem claim_C6_counterexample :
    (0 : ℚ) < 24000400/441 ∧
    calculate_minimum_profitable_amount none (24000400/441) <
      calculate_transaction_cost none (24000400/441) * PROFIT_MARGIN := by
  have hc : calculate_transaction_cost none (24000400/441) = 60001/1050 := by
    simp only [calculate_transaction_cost, get_gas_price, GAS_LIMIT]
    norm_num
  constructor
  · norm_num
  · rw [hc]
    simp only [calculate_minimum_profitable_amount, hc,
      MINIMUM_PROFITABLE_USD, PROFIT_MARGIN]
    rw [max_eq_right (by norm_num)]
    rw [pyRound_eq _ _ 6000 (by norm_num) (by norm_num)]
    norm_num

/-- C6 (amended): for every gas fetch and every price p > 0 the computed
minimum is at least the fixed 50 USD floor, and at least
`transactionCost(p) * profitMarginFactor` minus half a cent: the final
two-decimal rounding can undershoot the exact product by at most 1/200. -/
theorem claim_C6_amended (gasFetch : Option ℚ) (p : ℚ) (_hp : 0 < p) :
    MINIMUM_PROFITABLE_USD ≤ calculate_minimum_profitable_amount gasFetch p ∧
    calculate_transaction_cost gasFetch p * PROFIT_MARGIN - 1/200 ≤
      calculate_minimum_profitable_amount gasFetch p := by
  simp only [calculate_minimum_profitable_amount, MINIMUM_PROFITABLE_USD]
  constructor
  · have h := le_pyRound 50
      (max 50 (calculate_transaction_cost gasFetch p * PROFIT_MARGIN)) 2
      (by exact_mod_cast le_max_left _ _)
    exact_mod_cast h
  · have h1 := pyRound_ge
      (max 50 (calculate_transaction_cost gasFetch p * PROFIT_MARGIN)) 2
    have h2 : calculate_transaction_cost gasFetch p * PROFIT_MARGIN ≤
        max 50 (calculate_transaction_cost gasFetch p * PROFIT_MARGIN) :=
      le_max_right _ _
    have h3 : (1 : ℚ) / (2 * 10 ^ 2) = 1/200 := by norm_num
    linarith

/-- Witness for the amended C6 at the fallback gas rate and price 2000. -/
theorem claim_C6_amended_witness :
    MINIMUM_PROFITABLE_USD ≤ calculate_minimum_profitable_amount none 2000 ∧
    calculate_transaction_cost none 2000 * PROFIT_MARGIN - 1/200 ≤
      calculate_minimum_profitable_amount none 2000 :=
  claim_C6_amended none 2000 (by norm_num)

/-- C7: the clamp of the advisory engine: buy forces the amount to
`min(0.5, balance * 0.5)` ignoring the parsed amount, sell to
`min(parsed, balance * 0.5)`, every other action becomes hold with amount 0,
and the final amount is always non-negative and a whole multiple of
1/10^4 (four decimal places), the last rounding being applied to the
absolute value. -/
theorem claim_C7_clamp (r : AiReply) (balance_eth : ℚ) :
    ((r.action = "buy" →
        (clampSuggestion r balance_eth).action = "buy" ∧
        (clampSuggestion r balance_eth).amount =
          pyRound |min (1/2) (balance_eth * (1/2))| 4) ∧
     (r.action = "sell" →
        (clampSuggestion r balance_eth).action = "sell" ∧
        (clampSuggestion r balance_eth).amount =
          pyRound |min r.amount (balance_eth * (1/2))| 4) ∧
     (r.action ≠ "buy" → r.action ≠ "sell" →
        (clampSuggestion r balance_eth).action = "hold" ∧
        (clampSuggestion r balance_eth).amount = 0)) ∧
    0 ≤ (clampSuggestion r balance_eth).amount ∧
    (∃ k : ℤ, (clampSuggestion r balance_eth).amount = (k : ℚ) / 10 ^ 4) := by
  by_cases hb : r.action = "buy"
  · unfold clampSuggestion
    rw [if_pos hb]
    refine ⟨⟨fun _ => ⟨rfl, rfl⟩, fun hs => absurd (hb.symm.trans hs) (by decide),
      fun hnb _ => absurd hb hnb⟩, ?_, ?_⟩
    · exact pyRound_nonneg _ _ (abs_nonneg _)
    · exact ⟨pyRoundInt (|min (1/2) (balance_eth * (1/2))| * 10 ^ 4), rfl⟩
  · by_cases hs : r.action = "sell"
    · unfold clampSuggestion
      rw [if_neg hb, if_pos hs]
      refine ⟨⟨fun hb2 => absurd (hs.symm.trans hb2) (by decide),
        fun _ => ⟨rfl, rfl⟩, fun _ hns => absurd hs hns⟩, ?_, ?_⟩
      · exact pyRound_nonneg _ _ (abs_nonneg _)
      · exact ⟨pyRoundInt (|min r.amount (balance_eth * (1/2))| * 10 ^ 4), rfl⟩
    · unfold clampSuggestion
      rw [if_neg hb, if_neg hs]
      have hz : pyRound |(0 : ℚ)| 4 = 0 := by rw [abs_zero, pyRound_zero]
      refine ⟨⟨fun hb2 => absurd hb2 hb, fun hs2 => absurd hs2 hs,
        fun _ _ => ⟨rfl, hz⟩⟩, ?_, ?_⟩
      · rw [show ({ action := "hold", amount := pyRound |(0 : ℚ)| 4 } :
          Suggestion).amount = pyRound |(0 : ℚ)| 4 from rfl, hz]
      · exact ⟨pyRoundInt (|(0 : ℚ)| * 10 ^ 4), rfl⟩

/-- Witness for C7 at the spec example: sell with parsed amount 0.05 and
balance 0.2 keeps action sell and the clamped amount formula. -/
theorem claim_C7_clamp_witness :
    (clampSuggestion ⟨"sell", 1/20⟩ (1/5)).action = "sell" ∧
    (clampSuggestion ⟨"sell", 1/20⟩ (1/5)).amount =
      pyRound |min (1/20) ((1/5) * (1/2))| 4 :=
  (claim_C7_clamp ⟨"sell", 1/20⟩ (1/5)).1.2.1 rfl

/-- C8 (counterexample): an advisory reply of hold with amount 5, far above
the computed sale amount 0.0798, does not make the top-up fail: the clamp
zeroes the hold amount, the veto never fires, the call succeeds and the
wallet is debited. -/
theorem claim_C8_counterexample :
    (5 : ℚ) > (150 * PROFIT_MARGIN +
      calculate_transaction_cost extHold.sale.gasFetch 2000) / 2000 ∧
    (use_card initialLedger extHold 150).1 =
      Except.ok ⟨150, 350, 452/5, 113/2500, 50⟩ ∧
    (use_card initialLedger extHold 150).2.eth ≠ initialLedger.eth := by
  have hc : calculate_transaction_cost extHold.sale.gasFetch 2000 = 21/10 := by
    simp only [extHold]
    exact transaction_cost_default
  refine ⟨?_, ?_, ?_⟩
  · rw [hc]
    norm_num [PROFIT_MARGIN]
  · rw [use_card_run_hold]
  · rw [use_card_run_hold]
    norm_num [initialLedger]

/-- C8 (amended): the clamp forces every hold suggestion to amount 0, so for
non-negative gas and target the veto condition (hold with amount above the
sale amount) is unsatisfiable and `auto_sell_eth_for_card` never fails with
the advisory-veto error. -/
theorem claim_C8_veto_never_fires (st : LedgerState) (ext : SaleExternals)
    (t : ℚ) (hg : 0 ≤ get_gas_price ext.gasFetch) (ht : 0 ≤ t) :
    (auto_sell_eth_for_card st ext t).1 ≠
      Except.error "AI suggests holding" := by
  obtain ⟨c, w⟩ := st
  have hcost : 0 ≤ calculate_transaction_cost ext.gasFetch 2000 := by
    simp only [calculate_transaction_cost, GAS_LIMIT]
    have h9 : (0 : ℚ) ≤ get_gas_price ext.gasFetch / 10 ^ 9 :=
      div_nonneg hg (by norm_num)
    nlinarith
  have he : 0 ≤ (t * PROFIT_MARGIN +
      calculate_transaction_cost ext.gasFetch 2000) / 2000 :=
    div_nonneg
      (add_nonneg (mul_nonneg ht (by norm_num [PROFIT_MARGIN])) hcost)
      (by norm_num)
  simp only [auto_sell_eth_for_card, get_eth_price_eq_fallback]
  split
  · intro hcon
    exact absurd (Except.error.inj hcon) (by decide)
  · split
    · rename_i hveto
      exfalso
      rw [hold_amount_zero ext.aiReply w hveto.1] at hveto
      exact absurd hveto.2 (by linarith)
    · intro hcon
      cases hcon

/-- Witness for the amended C8: with the hold-amount-5 reply, fallback gas
and target 150, the sale does not fail with the advisory veto. -/
theorem claim_C8_veto_never_fires_witness :
    (auto_sell_eth_for_card initialLedger extHold.sale 150).1 ≠
      Except.error "AI suggests holding" :=
  claim_C8_veto_never_fires initialLedger extHold.sale 150
    (by norm_num [get_gas_price, extHold]) (by norm_num)

/-- C9: `/status` is read-only: it returns the ledger unchanged for every
starting state and every outcome of the external calls. -/
theorem claim_C9_status_read_only (st : LedgerState) (ext : StatusExternals) :
    (status st ext).2 = st := rfl

/-- C10: the oracle branch of `get_eth_price` dereferences the undefined
name `price_feed_address` (the configured constant is PRICE_FEED_ADDRESS),
so the contract call always raises and every invocation returns the
fallback constant 2000, whatever the oracle would have answered. -/
theorem claim_C10_price_always_fallback (oracleAnswer : ℚ) :
    get_eth_price_try oracleAnswer =
      Except.error "NameError: name price_feed_address is not defined" ∧
    get_eth_price oracleAnswer = 2000 := by
  constructor
  · unfold get_eth_price_try
    rw [if_neg (by decide)]
  · exact get_eth_price_eq_fallback oracleAnswer

end CardApp
